import Mathlib

/-!
Shallow embedding of the Tari merge mining proxy
(src/applications/tari_merge_mining_proxy/src/proxy.rs).

The proxy sits between a Monero miner and two nodes: the upstream monerod
node and a Tari base node reached over grpc.  Each HTTP handler is embedded
as a pure function from the shared transient state and an "environment"
record (the outcomes of the external calls the handler makes, in program
order) to a result together with the post state and counters of the grpc
interactions it performed.  Early returns in the Rust code become early
returns of the Lean match/if cascade; mutations of the locked transient
data that happen before an early return persist in the returned state,
exactly as they do behind the RwLock in the source.
-/

deriving instance DecidableEq for Except

namespace MmProxy

/-- Error type of the proxy.  The variants constructed explicitly in
proxy.rs keep their source names (InvalidMonerodResponse, GrpcRequestError,
GrpcResponseMissingField, TransientStateError, MissingDataError,
ProtobufConversionError).  The remaining variants stand for the
From-conversions performed by the question-mark operator (error.rs is not
part of the excerpt): grpc connect failure, hex/bincode codec failures,
coinbase construction failure and the JSON parse failure of a POST body. -/
inductive MmProxyError where
  | InvalidMonerodResponse (msg : String)
  | GrpcConnectionError
  | GrpcRequestError (details : String)
  | GrpcResponseMissingField (field : String)
  | TransientStateError (msg : String)
  | MissingDataError (msg : String)
  | ProtobufConversionError (name : String) (details : String)
  | DeserializationError (msg : String)
  | CoinbaseBuildError (msg : String)
  | MoneroRxConversionError (msg : String)
  | BincodeSerializeError (msg : String)
  | RequestBodyParseError
deriving DecidableEq

/-- Proof of work data of a Tari block header (grpc message, field
pow_data used at proxy.rs:246). -/
structure PowData where
  pow_data : List Nat
deriving DecidableEq

/-- Tari block header as used by the proxy: only the pow field is
touched (proxy.rs:238-247). -/
structure BlockHeader where
  pow : Option PowData
deriving DecidableEq

/-- Tari block as used by the proxy: only the header is touched
(proxy.rs:235-248). -/
structure GrpcBlock where
  header : Option BlockHeader
deriving DecidableEq

/-- Mining data returned by get_new_block (proxy.rs:338-341, 354). -/
structure MiningData where
  mergemining_hash : List Nat
deriving DecidableEq

/-- Result of the base node's get_new_block call: the assembled block and
its mining data (proxy.rs:320-344). -/
structure GetNewBlockResult where
  block : Option GrpcBlock
  mining_data : Option MiningData
deriving DecidableEq

/-- The shared transient mining state (state.rs is not in the excerpt;
the four fields and their types are fully determined by their uses in
proxy.rs: tari_height and tari_prev_submit_height at lines 172-184 and
259, tari_block at lines 200, 224, 261, 344, monero_seed at lines 201,
228, 262, 358). -/
structure TransientData where
  tari_height : Option Nat
  tari_prev_submit_height : Option Nat
  tari_block : Option GetNewBlockResult
  monero_seed : Option String
deriving DecidableEq

/-- The state the proxy starts with: no pending work, no known heights. -/
def initialState : TransientData :=
  { tari_height := none, tari_prev_submit_height := none,
    tari_block := none, monero_seed := none }

/-- Abstract model of a decoded Monero block: an opaque base blob plus the
list of merge mining tags appended to its coinbase extra field.  The
monero codec (monero::blockdata, monero_rx, helpers) is an out-of-scope
opaque encode/decode primitive per spec section 1; only the distinction
between the pre-tag and post-tag block matters to the proxy. -/
structure MoneroBlock where
  blob : String
  mm_tags : List (List Nat)
deriving DecidableEq

/-- monero_rx::append_merge_mining_tag (proxy.rs:354): appends a merge
mining tag carrying the given hash to the block's coinbase extra field. -/
def append_merge_mining_tag (b : MoneroBlock) (hash : List Nat) : MoneroBlock :=
  { b with mm_tags := b.mm_tags ++ [hash] }

/-- helpers::serialize_to_hex (proxy.rs:355): opaque re-encoding of a
Monero block; modeled as a concrete injective-enough encoding that
depends on the appended tags. -/
def serialize_to_hex (b : MoneroBlock) : String :=
  b.blob ++ String.join (b.mm_tags.map (fun t => "|tag:" ++ String.join (t.map toString)))

/-- monero_rx::create_input_blob (proxy.rs:350): opaque computation of the
hashing pre-image of a Monero block; modeled as a concrete function of the
block, distinct from serialize_to_hex. -/
def create_input_blob (b : MoneroBlock) : String :=
  "hashing:" ++ serialize_to_hex b

/-- Uniform handler outcome: the handler's result, the transient state
after the handler returns, and how many grpc connection attempts and grpc
submit_block calls the handler performed. -/
structure HandlerOut (ρ : Type) where
  result : Except MmProxyError ρ
  state : TransientData
  connects : Nat
  submits : Nat
deriving DecidableEq

/-! ### Height interceptor (proxy.rs:134-188, handle_get_height) -/

/-- Environment of one handle_get_height call, in program order: the
upstream response's height field (none models JSON null), whether the
grpc connect succeeds, whether get_tip_info fails, and the optional
metadata carrying the Tari tip height. -/
structure HeightEnv where
  monero_height : Option Nat
  connectOk : Bool
  tipFail : Bool
  metadata : Option Nat
deriving DecidableEq

/-- handle_get_height (proxy.rs:134-188).  The Ok payload is the value of
the height field of the JSON body returned to the caller. -/
def handle_get_height (st : TransientData) (env : HeightEnv) : HandlerOut Nat :=
  match env.monero_height with
  | none =>
      { result := .error (.InvalidMonerodResponse
          "height field was missing from /get_height response"),
        state := st, connects := 0, submits := 0 }
  | some mh =>
      if env.connectOk = false then
        { result := .error .GrpcConnectionError, state := st, connects := 1, submits := 0 }
      else if env.tipFail then
        { result := .error (.GrpcRequestError "get_tip_info failed"),
          state := st, connects := 1, submits := 0 }
      else
        match env.metadata with
        | none =>
            { result := .error (.GrpcResponseMissingField "metadata"),
              state := st, connects := 1, submits := 0 }
        | some height =>
            let respHeight :=
              match st.tari_height with
              | some current =>
                  if height ≠ current then current
                  else
                    match st.tari_prev_submit_height with
                    | some submit => if submit ≥ current then current else mh
                    | none => mh
              | none => mh
            { result := .ok respHeight,
              state := { st with tari_height := some height },
              connects := 1, submits := 0 }

/-! ### Submission coordinator (proxy.rs:190-267, handle_submit_block) -/

/-- Standard JSON-RPC error kinds of the jsonrpc crate used by the proxy
(proxy.rs:37, 458-466). -/
inductive StandardError where
  | ParseError
  | InvalidRequest
  | MethodNotFound
  | InvalidParams
  | InternalError
deriving DecidableEq

/-- Numeric codes of the standard JSON-RPC errors (the jsonrpc crate
implements the JSON-RPC 2.0 standard error codes). -/
def standardErrorCode : StandardError → Int
  | .ParseError => -32700
  | .InvalidRequest => -32600
  | .MethodNotFound => -32601
  | .InvalidParams => -32602
  | .InternalError => -32603

/-- Error object of a JSON-RPC error reply. -/
structure RpcErrorObject where
  code : Int
  data : Option String
deriving DecidableEq

/-- A complete JSON-RPC error reply body as produced by
jsonrpc::error::result_to_response over an Err (proxy.rs:460-463). -/
structure RpcErrorReply where
  error : RpcErrorObject
  id : Int
deriving DecidableEq

/-- standard_rpc_error (proxy.rs:458-466): builds a well-formed JSON-RPC
error reply with response id fixed to -1. -/
def standard_rpc_error (err : StandardError) (data : Option String) : RpcErrorReply :=
  { error := { code := standardErrorCode err, data := data }, id := -1 }

/-- Body returned by handle_submit_block on its Ok paths: either the
synthesized JSON-RPC error reply (invalid params) or the monerod response
passed through as is (proxy.rs:213-221, 264-266). -/
inductive SubmitResponse where
  | rpcError (reply : RpcErrorReply)
  | monerodResponse
deriving DecidableEq

/-- Environment of one handle_submit_block call, in program order:
whether result.status of the monerod response equals OK, the textual
rendering of result used in the error message, whether params[0] of the
request body is null, the outcome of deserializing the miner blob,
whether construct_monero_data and the bincode serialization fail, and the
outcomes of the grpc connect and submit_block calls. -/
structure SubmitEnv where
  statusOk : Bool
  resultText : String
  paramsNull : Bool
  decodedMonero : Except Unit MoneroBlock
  constructFail : Bool
  bincodeFail : Bool
  connectOk : Bool
  submitOk : Bool
deriving DecidableEq

/-- handle_submit_block (proxy.rs:190-267).  The transient lock is held
for the whole call; mutations made before an early return persist. -/
def handle_submit_block (st : TransientData) (env : SubmitEnv) :
    HandlerOut SubmitResponse :=
  if env.statusOk = false then
    { result := .error (.InvalidMonerodResponse
        ("Response status failed: " ++ env.resultText)),
      state := { st with tari_block := none, monero_seed := none },
      connects := 0, submits := 0 }
  else if env.paramsNull then
    { result := .ok (.rpcError (standard_rpc_error .InvalidParams
        (some "params field is empty or an invalid type for submit block request. Expected an array."))),
      state := st, connects := 0, submits := 0 }
  else
    match st.tari_block with
    | none =>
        { result := .error (.TransientStateError "No transient block"),
          state := st, connects := 0, submits := 0 }
    | some tari_block =>
        match st.monero_seed with
        | none =>
            { result := .error (.TransientStateError "No transient monero seed"),
              state := st, connects := 0, submits := 0 }
        | some _monero_seed =>
            match tari_block.block with
            | none =>
                { result := .error (.MissingDataError "Invalid transient block"),
                  state := st, connects := 0, submits := 0 }
            | some block =>
                match block.header with
                | none =>
                    { result := .error (.MissingDataError "Invalid transient header"),
                      state := st, connects := 0, submits := 0 }
                | some tari_header =>
                    match tari_header.pow with
                    | none =>
                        { result := .error (.MissingDataError "Invalid transient proof of work"),
                          state := st, connects := 0, submits := 0 }
                    | some _pow =>
                        match env.decodedMonero with
                        | .error _ =>
                            { result := .error (.DeserializationError "monero block"),
                              state := st, connects := 0, submits := 0 }
                        | .ok _monero_block =>
                            if env.constructFail then
                              { result := .error (.MoneroRxConversionError "construct_monero_data"),
                                state := st, connects := 0, submits := 0 }
                            else if env.bincodeFail then
                              { result := .error (.BincodeSerializeError "pow data"),
                                state := st, connects := 0, submits := 0 }
                            else if env.connectOk = false then
                              { result := .error .GrpcConnectionError,
                                state := st, connects := 1, submits := 0 }
                            else if env.submitOk = false then
                              { result := .error (.GrpcRequestError "failed to submit block"),
                                state := st, connects := 1, submits := 1 }
                            else
                              { result := .ok .monerodResponse,
                                state := { st with
                                  tari_prev_submit_height := st.tari_height,
                                  tari_block := none,
                                  monero_seed := none },
                                connects := 1, submits := 1 }

/-! ### Template augmentation engine (proxy.rs:269-363,
handle_get_block_template) -/

/-- Environment of one handle_get_block_template call, in program order:
the upstream blocktemplate_blob (none models JSON null), the upstream
seed_hash (none models JSON null), the outcomes of the grpc connect,
get_new_block_template (call failure, then missing field), the protobuf
conversion, add_coinbase, get_new_block (call failure, then its payload),
the decode of the upstream blob, and the remaining codec steps. -/
structure TemplateEnv where
  blocktemplate_blob : Option String
  seed_hash : Option String
  connectOk : Bool
  gnbtFail : Bool
  gnbtMissing : Bool
  convertFail : Option String
  coinbaseFail : Bool
  gnbFail : Bool
  newBlock : GetNewBlockResult
  decoded : Except Unit MoneroBlock
  inputBlobFail : Bool
  appendFail : Bool
  serializeFail : Bool
deriving DecidableEq

/-- Response body of a successful handle_get_block_template: the fields
the handler writes; all others pass through verbatim. -/
structure TemplateResponse where
  blockhashing_blob : String
  blocktemplate_blob : String
  seed_hash : Option String
deriving DecidableEq

/-- handle_get_block_template (proxy.rs:269-363).  The transient lock is
taken at line 343, after the grpc calls: tari_block is stored before the
upstream blob is decoded, so every later failure leaves the stored
anchor block behind without a matching seed; the seed itself is stored
last, filtered to none when the upstream seed_hash is null
(proxy.rs:358-360). -/
def handle_get_block_template (st : TransientData) (env : TemplateEnv) :
    HandlerOut TemplateResponse :=
  match env.blocktemplate_blob with
  | none =>
      { result := .error (.InvalidMonerodResponse
          "Expected get_block_template to include result.blocktemplate_blob but it was null"),
        state := st, connects := 0, submits := 0 }
  | some _blob =>
      if env.connectOk = false then
        { result := .error .GrpcConnectionError, state := st, connects := 1, submits := 0 }
      else if env.gnbtFail then
        { result := .error (.GrpcRequestError "failed to get new block template"),
          state := st, connects := 1, submits := 0 }
      else if env.gnbtMissing then
        { result := .error (.GrpcResponseMissingField "new_block_template"),
          state := st, connects := 1, submits := 0 }
      else
        match env.convertFail with
        | some details =>
            { result := .error (.ProtobufConversionError "NewBlockTemplate" details),
              state := st, connects := 1, submits := 0 }
        | none =>
            if env.coinbaseFail then
              { result := .error (.CoinbaseBuildError "add_coinbase"),
                state := st, connects := 1, submits := 0 }
            else if env.gnbFail then
              { result := .error (.GrpcRequestError "failed to get new block"),
                state := st, connects := 1, submits := 0 }
            else
              match env.newBlock.mining_data with
              | none =>
                  { result := .error (.GrpcResponseMissingField "mining_data"),
                    state := st, connects := 1, submits := 0 }
              | some mining_data =>
                  let st := { st with tari_block := some env.newBlock }
                  match env.decoded with
                  | .error _ =>
                      { result := .error (.DeserializationError "block template blob"),
                        state := st, connects := 1, submits := 0 }
                  | .ok block =>
                      if env.inputBlobFail then
                        { result := .error (.MoneroRxConversionError "create_input_blob"),
                          state := st, connects := 1, submits := 0 }
                      else
                        let input_blob := create_input_blob block
                        if env.appendFail then
                          { result := .error (.MoneroRxConversionError "append_merge_mining_tag"),
                            state := st, connects := 1, submits := 0 }
                        else
                          let tagged := append_merge_mining_tag block mining_data.mergemining_hash
                          if env.serializeFail then
                            { result := .error (.BincodeSerializeError "serialize_to_hex"),
                              state := st, connects := 1, submits := 0 }
                          else
                            let st := { st with monero_seed := env.seed_hash }
                            { result := .ok
                                { blockhashing_blob := input_blob,
                                  blocktemplate_blob := serialize_to_hex tagged,
                                  seed_hash := env.seed_hash },
                              state := st, connects := 1, submits := 0 }

/-! ### Request router (proxy.rs:410-455, get_proxy_response and handle) -/

/-- HTTP method of the inbound request as the router distinguishes it. -/
inductive HttpMethod where
  | GET
  | POST
  | OTHER
deriving DecidableEq

/-- One inbound request paired with the environments of whichever handler
the router may dispatch it to: method, path, the JSON serialization of the
monerod response body (used for passthrough), whether the POST body parses
as JSON, and the three handler environments. -/
structure RequestEnv where
  method : HttpMethod
  path : String
  upstreamBody : String
  bodyParses : Bool
  heightEnv : HeightEnv
  templateEnv : TemplateEnv
  submitEnv : SubmitEnv
deriving DecidableEq

/-- Body returned by get_proxy_response: either the monerod response
passed through unmodified or the output of one of the three handlers. -/
inductive ProxyResponse where
  | passthrough (body : String)
  | heightResp (h : Nat)
  | templateResp (t : TemplateResponse)
  | submitResp (s : SubmitResponse)
deriving DecidableEq

/-- Lifts a handler outcome into the router's response type. -/
def HandlerOut.mapResult {ρ σ : Type} (f : ρ → σ) (o : HandlerOut ρ) : HandlerOut σ :=
  { result := o.result.map f, state := o.state,
    connects := o.connects, submits := o.submits }

/-- get_proxy_response (proxy.rs:410-438).  On POST the body is parsed as
JSON before the path dispatch (proxy.rs:427); a parse failure propagates
as an error for every POST path, including non-matching ones. -/
def get_proxy_response (st : TransientData) (req : RequestEnv) :
    HandlerOut ProxyResponse :=
  match req.method with
  | .GET =>
      if req.path = "/get_height" ∨ req.path = "/getheight" then
        (handle_get_height st req.heightEnv).mapResult .heightResp
      else
        { result := .ok (.passthrough req.upstreamBody),
          state := st, connects := 0, submits := 0 }
  | .POST =>
      if req.bodyParses = false then
        { result := .error .RequestBodyParseError,
          state := st, connects := 0, submits := 0 }
      else if req.path = "/submit_block" ∨ req.path = "/submitblock" then
        (handle_submit_block st req.submitEnv).mapResult .submitResp
      else if req.path = "/get_block_template" ∨ req.path = "/getblocktemplate" then
        (handle_get_block_template st req.templateEnv).mapResult .templateResp
      else
        { result := .ok (.passthrough req.upstreamBody),
          state := st, connects := 0, submits := 0 }
  | .OTHER =>
      { result := .ok (.passthrough req.upstreamBody),
        state := st, connects := 0, submits := 0 }

/-- Whether an HTTP status code is a success (2xx), as
hyper's StatusCode::is_success decides it (proxy.rs:444). -/
def statusIsSuccess (status : Nat) : Bool :=
  200 ≤ status && status < 300

/-- Body returned by handle: either the non-2xx monerod response passed
straight through to the caller or a routed response. -/
inductive HandleResponse where
  | errorPassthrough (status : Nat) (body : String)
  | proxied (r : ProxyResponse)
deriving DecidableEq

/-- handle (proxy.rs:440-455), starting after the monerod round trip has
produced a response with the given status and body: a non-2xx response is
returned immediately and unmodified, bypassing the router entirely. -/
def handle (st : TransientData) (upstreamStatus : Nat) (req : RequestEnv) :
    HandlerOut HandleResponse :=
  if statusIsSuccess upstreamStatus = false then
    { result := .ok (.errorPassthrough upstreamStatus req.upstreamBody),
      state := st, connects := 0, submits := 0 }
  else
    (get_proxy_response st req).mapResult .proxied

/-! ### Operation sequences over the shared state -/

/-- One state-touching operation of the proxy, with the environment of
the external calls it makes. -/
inductive Op where
  | getHeight (env : HeightEnv)
  | getTemplate (env : TemplateEnv)
  | submit (env : SubmitEnv)
deriving DecidableEq

/-- The transient state after one operation completes (successfully or
with an error). -/
def stepState (st : TransientData) : Op → TransientData
  | .getHeight env => (handle_get_height st env).state
  | .getTemplate env => (handle_get_block_template st env).state
  | .submit env => (handle_submit_block st env).state

/-- The transient state after a sequence of operations completes. -/
def runOps (st : TransientData) : List Op → TransientData
  | [] => st
  | op :: ops => runOps (stepState st op) ops

/-! ### Concrete sample values used by counterexamples and witnesses -/

/-- Sample mining data with a concrete merge mining hash. -/
def exMiningData : MiningData := { mergemining_hash := [7, 7, 7] }

/-- Sample Tari block with all optional layers present. -/
def exGrpcBlock : GrpcBlock :=
  { header := some { pow := some { pow_data := [] } } }

/-- Sample get_new_block result with block and mining data present. -/
def exNewBlock : GetNewBlockResult :=
  { block := some exGrpcBlock, mining_data := some exMiningData }

/-- Sample decoded Monero block with no merge mining tag yet. -/
def exMoneroBlock : MoneroBlock := { blob := "ab", mm_tags := [] }

/-- Template environment in which every external call succeeds but the
upstream seed_hash is null. -/
def nullSeedTemplateEnv : TemplateEnv :=
  { blocktemplate_blob := some "blob", seed_hash := none, connectOk := true,
    gnbtFail := false, gnbtMissing := false, convertFail := none,
    coinbaseFail := false, gnbFail := false, newBlock := exNewBlock,
    decoded := .ok exMoneroBlock, inputBlobFail := false, appendFail := false,
    serializeFail := false }

/-- Template environment in which every external call succeeds and the
upstream seed_hash is present. -/
def okSeedTemplateEnv : TemplateEnv :=
  { nullSeedTemplateEnv with seed_hash := some "seed" }

/-- A transient state holding one full unit of pending work at known
height 100 with no prior submission. -/
def stPending : TransientData :=
  { tari_height := some 100, tari_prev_submit_height := none,
    tari_block := some exNewBlock, monero_seed := some "seed" }

/-- Submit environment reaching the anchor chain submission step, whose
submit_block call fails. -/
def submitFailEnv : SubmitEnv :=
  { statusOk := true, resultText := "", paramsNull := false,
    decodedMonero := .ok exMoneroBlock, constructFail := false,
    bincodeFail := false, connectOk := true, submitOk := false }

/-- Submit environment reaching the anchor chain submission step, whose
submit_block call succeeds. -/
def submitOkEnv : SubmitEnv := { submitFailEnv with submitOk := true }

/-! ### Claims -/

/-- C5: for every submit-block request whose upstream response status is
not OK, the handler clears both pending-work fields, returns the
upstream-rejected (InvalidMonerodResponse) error, and never contacts the
anchor chain: the submit_block operation (and even the connect) is not
invoked. -/
theorem C5_upstream_rejected (st : TransientData) (env : SubmitEnv)
    (h : env.statusOk = false) :
    (handle_submit_block st env).state.tari_block = none
    ∧ (handle_submit_block st env).state.monero_seed = none
    ∧ (handle_submit_block st env).result =
        .error (.InvalidMonerodResponse ("Response status failed: " ++ env.resultText))
    ∧ (handle_submit_block st env).submits = 0
    ∧ (handle_submit_block st env).connects = 0 := by
  simp [handle_submit_block, h]

/-- Witness for C5 at a concrete rejected submission. -/
theorem C5_upstream_rejected_witness :
    (handle_submit_block stPending { submitFailEnv with statusOk := false }).state.tari_block = none
    ∧ (handle_submit_block stPending { submitFailEnv with statusOk := false }).state.monero_seed = none
    ∧ (handle_submit_block stPending { submitFailEnv with statusOk := false }).result =
        .error (.InvalidMonerodResponse ("Response status failed: "
          ++ ({ submitFailEnv with statusOk := false } : SubmitEnv).resultText))
    ∧ (handle_submit_block stPending { submitFailEnv with statusOk := false }).submits = 0
    ∧ (handle_submit_block stPending { submitFailEnv with statusOk := false }).connects = 0 :=
  C5_upstream_rejected stPending { submitFailEnv with statusOk := false } rfl

/-- C6: for every submit-block request whose upstream response reported
success but whose params[0] is absent or null, the handler returns a
well-formed JSON-RPC invalid-params error reply (code -32602) with
response id fixed to -1, not a propagated failure, and no anchor-chain
call is attempted. -/
theorem C6_invalid_params (st : TransientData) (env : SubmitEnv)
    (h1 : env.statusOk = true) (h2 : env.paramsNull = true) :
    (handle_submit_block st env).result = .ok (.rpcError
      { error :=
          { code := -32602,
            data := some "params field is empty or an invalid type for submit block request. Expected an array." },
        id := -1 })
    ∧ (handle_submit_block st env).connects = 0
    ∧ (handle_submit_block st env).submits = 0
    ∧ (handle_submit_block st env).state = st := by
  simp [handle_submit_block, standard_rpc_error, standardErrorCode, h1, h2]

/-- Witness for C6 at a concrete null-params submission. -/
theorem C6_invalid_params_witness :
    (handle_submit_block stPending { submitFailEnv with paramsNull := true }).result = .ok (.rpcError
      { error :=
          { code := -32602,
            data := some "params field is empty or an invalid type for submit block request. Expected an array." },
        id := -1 })
    ∧ (handle_submit_block stPending { submitFailEnv with paramsNull := true }).connects = 0
    ∧ (handle_submit_block stPending { submitFailEnv with paramsNull := true }).submits = 0
    ∧ (handle_submit_block stPending { submitFailEnv with paramsNull := true }).state = stPending :=
  C6_invalid_params stPending { submitFailEnv with paramsNull := true } rfl rfl

/-- C8: for every inbound request, if the upstream response has a non-2xx
status, it is returned to the caller immediately and unmodified, no
augmentation handler runs (no grpc interaction), and the shared mining
state is unchanged. -/
theorem C8_non2xx_passthrough (st : TransientData) (status : Nat) (req : RequestEnv)
    (h : statusIsSuccess status = false) :
    handle st status req =
      { result := .ok (.errorPassthrough status req.upstreamBody),
        state := st, connects := 0, submits := 0 } := by
  simp [handle, h]

/-- Witness for C8 at a concrete 404 upstream response. -/
theorem C8_non2xx_passthrough_witness :
    statusIsSuccess 404 = false
    ∧ handle stPending 404
        { method := .POST, path := "/submit_block", upstreamBody := "oops",
          bodyParses := true, heightEnv := ⟨some 5, true, false, some 6⟩,
          templateEnv := okSeedTemplateEnv, submitEnv := submitOkEnv } =
      { result := .ok (.errorPassthrough 404 "oops"),
        state := stPending, connects := 0, submits := 0 } :=
  ⟨by decide,
    C8_non2xx_passthrough stPending 404
      { method := .POST, path := "/submit_block", upstreamBody := "oops",
        bodyParses := true, heightEnv := ⟨some 5, true, false, some 6⟩,
        templateEnv := okSeedTemplateEnv, submitEnv := submitOkEnv }
      (by decide)⟩

/-- C3: for every get-height request with previously known anchor height
H1 and current anchor tip height H2: if H2 differs from H1 the response
height is rewritten to H1; if H2 equals H1 and a prior submission height
exists at or after H1, the response height is rewritten to H1; otherwise
the upstream height passes through unmodified; and in all cases
(including when no height was previously known) the known height is then
set to H2. -/
theorem C3_height_interception (st : TransientData) (env : HeightEnv)
    (mh : Nat) (hmh : env.monero_height = some mh)
    (hc : env.connectOk = true) (ht : env.tipFail = false)
    (h2 : Nat) (hmd : env.metadata = some h2) :
    ((∀ h1, st.tari_height = some h1 → h2 ≠ h1 →
        (handle_get_height st env).result = .ok h1)
    ∧ (∀ h1 s, st.tari_height = some h1 → h2 = h1 →
        st.tari_prev_submit_height = some s → h1 ≤ s →
        (handle_get_height st env).result = .ok h1)
    ∧ (st.tari_height = none → (handle_get_height st env).result = .ok mh)
    ∧ (∀ h1, st.tari_height = some h1 → h2 = h1 →
        (∀ s, st.tari_prev_submit_height = some s → s < h1) →
        (handle_get_height st env).result = .ok mh)
    ∧ (handle_get_height st env).state.tari_height = some h2) := by
  simp only [handle_get_height, hmh, hc, ht, hmd]
  refine ⟨?_, ?_, ?_, ?_, ?_⟩
  · intro h1 hst hne
    simp [hst, hne]
  · intro h1 s hst he hsub hle
    simp [hst, he, hsub, hle]
  · intro hst
    simp [hst]
  · intro h1 hst he hlt
    cases hsub : st.tari_prev_submit_height with
    | none => simp [hst, he, hsub]
    | some s =>
        have := hlt s hsub
        simp [hst, he, hsub, Nat.not_le_of_lt this]
  · simp

/-- Witness for C3 at a concrete request with no previously known
height. -/
theorem C3_height_interception_witness :
    ((∀ h1, initialState.tari_height = some h1 → 42 ≠ h1 →
        (handle_get_height initialState ⟨some 9, true, false, some 42⟩).result = .ok h1)
    ∧ (∀ h1 s, initialState.tari_height = some h1 → 42 = h1 →
        initialState.tari_prev_submit_height = some s → h1 ≤ s →
        (handle_get_height initialState ⟨some 9, true, false, some 42⟩).result = .ok h1)
    ∧ (initialState.tari_height = none →
        (handle_get_height initialState ⟨some 9, true, false, some 42⟩).result = .ok 9)
    ∧ (∀ h1, initialState.tari_height = some h1 → 42 = h1 →
        (∀ s, initialState.tari_prev_submit_height = some s → s < h1) →
        (handle_get_height initialState ⟨some 9, true, false, some 42⟩).result = .ok 9)
    ∧ (handle_get_height initialState ⟨some 9, true, false, some 42⟩).state.tari_height
        = some 42) :=
  C3_height_interception initialState ⟨some 9, true, false, some 42⟩ 9 rfl rfl rfl 42 rfl

/-- C4: in the template-augmentation handler, for every upstream template
response with a non-null blocktemplate_blob (and otherwise successful
external calls), the blockhashing_blob of the response is the hashing
pre-image of the decoded upstream block before the merge mining tag is
appended, and the blocktemplate_blob is the re-encoding of the block
after the tag carrying the anchor block's merge mining hash was
appended. -/
theorem C4_template_blob_ordering (st : TransientData) (env : TemplateEnv)
    (blob : String) (hb : env.blocktemplate_blob = some blob)
    (hc : env.connectOk = true) (hg1 : env.gnbtFail = false)
    (hg2 : env.gnbtMissing = false) (hg3 : env.convertFail = none)
    (hg4 : env.coinbaseFail = false) (hg5 : env.gnbFail = false)
    (md : MiningData) (hmd : env.newBlock.mining_data = some md)
    (blk : MoneroBlock) (hdec : env.decoded = .ok blk)
    (hc1 : env.inputBlobFail = false) (hc2 : env.appendFail = false)
    (hc3 : env.serializeFail = false) :
    (handle_get_block_template st env).result = .ok
      { blockhashing_blob := create_input_blob blk,
        blocktemplate_blob :=
          serialize_to_hex (append_merge_mining_tag blk md.mergemining_hash),
        seed_hash := env.seed_hash } := by
  simp [handle_get_block_template, hb, hc, hg1, hg2, hg3, hg4, hg5, hmd, hdec,
    hc1, hc2, hc3]

/-- Witness for C4 at a concrete successful template fetch. -/
theorem C4_template_blob_ordering_witness :
    (handle_get_block_template initialState okSeedTemplateEnv).result = .ok
      { blockhashing_blob := create_input_blob exMoneroBlock,
        blocktemplate_blob :=
          serialize_to_hex (append_merge_mining_tag exMoneroBlock exMiningData.mergemining_hash),
        seed_hash := okSeedTemplateEnv.seed_hash } :=
  C4_template_blob_ordering initialState okSeedTemplateEnv "blob" rfl rfl rfl rfl
    rfl rfl rfl exMiningData rfl exMoneroBlock rfl rfl rfl rfl

/-- C9: for every anchor-chain call whose reply is received but lacks an
expected field (metadata on get_tip_info, new_block_template on
get_new_block_template, mining_data on get_new_block), the handler fails
with the GrpcResponseMissingField error naming that field, and that
variant is distinct from the transport-failure variants GrpcRequestError
and GrpcConnectionError. -/
theorem C9_missing_field_errors
    (st1 : TransientData) (e1 : HeightEnv) (mh : Nat)
    (a1 : e1.monero_height = some mh) (a2 : e1.connectOk = true)
    (a3 : e1.tipFail = false) (a4 : e1.metadata = none)
    (st2 : TransientData) (e2 : TemplateEnv) (blob2 : String)
    (b1 : e2.blocktemplate_blob = some blob2) (b2 : e2.connectOk = true)
    (b3 : e2.gnbtFail = false) (b4 : e2.gnbtMissing = true)
    (st3 : TransientData) (e3 : TemplateEnv) (blob3 : String)
    (c1 : e3.blocktemplate_blob = some blob3) (c2 : e3.connectOk = true)
    (c3 : e3.gnbtFail = false) (c4 : e3.gnbtMissing = false)
    (c5 : e3.convertFail = none) (c6 : e3.coinbaseFail = false)
    (c7 : e3.gnbFail = false) (c8 : e3.newBlock.mining_data = none) :
    (handle_get_height st1 e1).result =
        .error (.GrpcResponseMissingField "metadata")
    ∧ (handle_get_block_template st2 e2).result =
        .error (.GrpcResponseMissingField "new_block_template")
    ∧ (handle_get_block_template st3 e3).result =
        .error (.GrpcResponseMissingField "mining_data")
    ∧ (∀ f d, (MmProxyError.GrpcResponseMissingField f) ≠ MmProxyError.GrpcRequestError d)
    ∧ (∀ f, (MmProxyError.GrpcResponseMissingField f) ≠ MmProxyError.GrpcConnectionError) := by
  refine ⟨?_, ?_, ?_, ?_, ?_⟩
  · simp [handle_get_height, a1, a2, a3, a4]
  · simp [handle_get_block_template, b1, b2, b3, b4]
  · simp [handle_get_block_template, c1, c2, c3, c4, c5, c6, c7, c8]
  · intro f d h
    exact MmProxyError.noConfusion h
  · intro f h
    exact MmProxyError.noConfusion h

/-- Witness for C9 at concrete missing-field replies. -/
theorem C9_missing_field_errors_witness :
    (handle_get_height initialState ⟨some 9, true, false, none⟩).result =
        .error (.GrpcResponseMissingField "metadata")
    ∧ (handle_get_block_template initialState
        { okSeedTemplateEnv with gnbtMissing := true }).result =
        .error (.GrpcResponseMissingField "new_block_template")
    ∧ (handle_get_block_template initialState
        { okSeedTemplateEnv with newBlock := { block := some exGrpcBlock, mining_data := none } }).result =
        .error (.GrpcResponseMissingField "mining_data")
    ∧ (∀ f d, (MmProxyError.GrpcResponseMissingField f) ≠ MmProxyError.GrpcRequestError d)
    ∧ (∀ f, (MmProxyError.GrpcResponseMissingField f) ≠ MmProxyError.GrpcConnectionError) :=
  C9_missing_field_errors initialState ⟨some 9, true, false, none⟩ 9 rfl rfl rfl rfl
    initialState { okSeedTemplateEnv with gnbtMissing := true } "blob" rfl rfl rfl rfl
    initialState { okSeedTemplateEnv with newBlock := { block := some exGrpcBlock, mining_data := none } }
    "blob" rfl rfl rfl rfl rfl rfl rfl rfl

/-- C10: if the upstream template response's seed_hash is null and every
external call succeeds, the template handler still returns the augmented
template, but stores the anchor block with no seed, so a following
submit-block request whose upstream status is OK (and whose params are
present) fails with the transient-state error about the missing monero
seed. -/
theorem C10_null_seed_hash (st : TransientData) (env : TemplateEnv)
    (env2 : SubmitEnv)
    (hseed : env.seed_hash = none)
    (hb : env.blocktemplate_blob = some "blob")
    (hc : env.connectOk = true) (hg1 : env.gnbtFail = false)
    (hg2 : env.gnbtMissing = false) (hg3 : env.convertFail = none)
    (hg4 : env.coinbaseFail = false) (hg5 : env.gnbFail = false)
    (md : MiningData) (hmd : env.newBlock.mining_data = some md)
    (blk : MoneroBlock) (hdec : env.decoded = .ok blk)
    (hc1 : env.inputBlobFail = false) (hc2 : env.appendFail = false)
    (hc3 : env.serializeFail = false)
    (hs1 : env2.statusOk = true) (hs2 : env2.paramsNull = false) :
    (handle_get_block_template st env).result = .ok
      { blockhashing_blob := create_input_blob blk,
        blocktemplate_blob :=
          serialize_to_hex (append_merge_mining_tag blk md.mergemining_hash),
        seed_hash := none }
    ∧ (handle_get_block_template st env).state.tari_block = some env.newBlock
    ∧ (handle_get_block_template st env).state.monero_seed = none
    ∧ (handle_submit_block (handle_get_block_template st env).state env2).result =
        .error (.TransientStateError "No transient monero seed") := by
  have hres : handle_get_block_template st env =
      { result := .ok
          { blockhashing_blob := create_input_blob blk,
            blocktemplate_blob :=
              serialize_to_hex (append_merge_mining_tag blk md.mergemining_hash),
            seed_hash := none },
        state := { st with tari_block := some env.newBlock, monero_seed := none },
        connects := 1, submits := 0 } := by
    simp [handle_get_block_template, hseed, hb, hc, hg1, hg2, hg3, hg4, hg5, hmd,
      hdec, hc1, hc2, hc3]
  refine ⟨?_, ?_, ?_, ?_⟩
  · rw [hres]
  · rw [hres]
  · rw [hres]
  · rw [hres]
    simp [handle_submit_block, hs1, hs2]

/-- Witness for C10 at a concrete null-seed template fetch followed by a
well-formed accepted submission. -/
theorem C10_null_seed_hash_witness :
    (handle_get_block_template initialState nullSeedTemplateEnv).result = .ok
      { blockhashing_blob := create_input_blob exMoneroBlock,
        blocktemplate_blob :=
          serialize_to_hex (append_merge_mining_tag exMoneroBlock exMiningData.mergemining_hash),
        seed_hash := none }
    ∧ (handle_get_block_template initialState nullSeedTemplateEnv).state.tari_block
        = some nullSeedTemplateEnv.newBlock
    ∧ (handle_get_block_template initialState nullSeedTemplateEnv).state.monero_seed = none
    ∧ (handle_submit_block (handle_get_block_template initialState nullSeedTemplateEnv).state
        submitOkEnv).result =
        .error (.TransientStateError "No transient monero seed") :=
  C10_null_seed_hash initialState nullSeedTemplateEnv submitOkEnv rfl rfl rfl rfl
    rfl rfl rfl rfl exMiningData rfl exMoneroBlock rfl rfl rfl rfl rfl rfl

/-- One direction of the pending-work pairing: whenever the monero seed
is present, the anchor block is present too. -/
def seedImpliesBlock (st : TransientData) : Prop :=
  st.monero_seed.isSome = true → st.tari_block.isSome = true

/-- The height interceptor never touches the pending-work fields. -/
theorem handle_get_height_pending_fields (st : TransientData) (env : HeightEnv) :
    (handle_get_height st env).state.tari_block = st.tari_block
    ∧ (handle_get_height st env).state.monero_seed = st.monero_seed := by
  obtain ⟨mh, cOk, tf, md⟩ := env
  cases mh <;> cases cOk <;> cases tf <;> cases md <;> simp [handle_get_height]

/-- The template handler preserves the seed-implies-block direction: it
only ever adds an anchor block (possibly without a seed), never a seed
without an anchor block. -/
theorem handle_get_block_template_seedImpliesBlock (st : TransientData)
    (env : TemplateEnv) (h : seedImpliesBlock st) :
    seedImpliesBlock (handle_get_block_template st env).state := by
  unfold seedImpliesBlock at *
  unfold handle_get_block_template
  repeat' split
  all_goals simp_all

/-- The submission coordinator preserves the seed-implies-block
direction: it clears both fields together or leaves both unchanged. -/
theorem handle_submit_block_seedImpliesBlock (st : TransientData)
    (env : SubmitEnv) (h : seedImpliesBlock st) :
    seedImpliesBlock (handle_submit_block st env).state := by
  unfold seedImpliesBlock at *
  unfold handle_submit_block
  repeat' split
  all_goals simp_all

/-- Every single operation preserves the seed-implies-block direction. -/
theorem stepState_seedImpliesBlock (st : TransientData) (op : Op)
    (h : seedImpliesBlock st) : seedImpliesBlock (stepState st op) := by
  cases op with
  | getHeight env =>
      intro hs
      obtain ⟨hb, hm⟩ := handle_get_height_pending_fields st env
      rw [stepState] at hs ⊢
      rw [hm] at hs
      rw [hb]
      exact h hs
  | getTemplate env => exact handle_get_block_template_seedImpliesBlock st env h
  | submit env => exact handle_submit_block_seedImpliesBlock st env h

/-- Every operation sequence preserves the seed-implies-block direction. -/
theorem runOps_seedImpliesBlock (ops : List Op) :
    ∀ st : TransientData, seedImpliesBlock st → seedImpliesBlock (runOps st ops) := by
  induction ops with
  | nil => intro st h; exact h
  | cons op ops ih => intro st h; exact ih _ (stepState_seedImpliesBlock st op h)

/-- C1 is false as stated: a template fetch whose external calls all
succeed but whose upstream seed_hash is null stores the anchor block
while leaving the seed absent, so after the operation completes the two
pending-work fields are not both present or both absent. -/
theorem C1_counterexample :
    (runOps initialState [Op.getTemplate nullSeedTemplateEnv]).tari_block = some exNewBlock
    ∧ (runOps initialState [Op.getTemplate nullSeedTemplateEnv]).monero_seed = none := by
  exact ⟨rfl, rfl⟩

/-- C1 (amended): across every sequence of operations starting from the
empty state, whenever pending_seed (monero_seed) is present,
pending_anchor_block (tari_block) is present too; the converse direction
fails, since a template fetch with a null upstream seed_hash (or one that
errors after storing the anchor block) leaves the anchor block present
with the seed absent. -/
theorem C1_pending_seed_implies_block (ops : List Op)
    (h : (runOps initialState ops).monero_seed.isSome = true) :
    (runOps initialState ops).tari_block.isSome = true :=
  runOps_seedImpliesBlock ops initialState
    (fun hs => by simp [initialState] at hs) h

/-- Witness for the amended C1 at a concrete fully successful template
fetch. -/
theorem C1_pending_seed_implies_block_witness :
    (runOps initialState [Op.getTemplate okSeedTemplateEnv]).monero_seed.isSome = true
    ∧ (runOps initialState [Op.getTemplate okSeedTemplateEnv]).tari_block.isSome = true :=
  ⟨rfl, C1_pending_seed_implies_block [Op.getTemplate okSeedTemplateEnv] rfl⟩

/-- C2 is false as stated: a submission that reaches the anchor-chain
submit step and fails there returns the error before the height update
and the clears, leaving both pending-work fields set and the previous
submit height untouched. -/
theorem C2_counterexample :
    (handle_submit_block stPending submitFailEnv).submits = 1
    ∧ (handle_submit_block stPending submitFailEnv).state.tari_block = some exNewBlock
    ∧ (handle_submit_block stPending submitFailEnv).state.monero_seed = some "seed"
    ∧ (handle_submit_block stPending submitFailEnv).state.tari_prev_submit_height = none := by
  exact ⟨rfl, rfl, rfl, rfl⟩

/-- C2 (amended): for every submit-block request that reaches the
anchor-chain submission step, the handler sets last_submitted_height to
last_known_height and clears both pending-work fields only when the
submit call succeeds; when the submit call fails, the handler returns
the remote-call error and leaves last_submitted_height and both
pending-work fields unchanged. -/
theorem C2_submit_step_state (st : TransientData) (env : SubmitEnv)
    (hst : env.statusOk = true) (hp : env.paramsNull = false)
    (tb : GetNewBlockResult) (hb : st.tari_block = some tb)
    (seed : String) (hseed : st.monero_seed = some seed)
    (blk : GrpcBlock) (hblk : tb.block = some blk)
    (hd : BlockHeader) (hhd : blk.header = some hd)
    (pw : PowData) (hpw : hd.pow = some pw)
    (mb : MoneroBlock) (hdec : env.decodedMonero = .ok mb)
    (hcf : env.constructFail = false) (hbf : env.bincodeFail = false)
    (hco : env.connectOk = true) :
    (handle_submit_block st env).submits = 1
    ∧ (env.submitOk = true →
        (handle_submit_block st env).state =
          { st with tari_prev_submit_height := st.tari_height,
                    tari_block := none, monero_seed := none })
    ∧ (env.submitOk = false →
        (handle_submit_block st env).result =
          .error (.GrpcRequestError "failed to submit block")
        ∧ (handle_submit_block st env).state = st) := by
  cases hso : env.submitOk <;>
    simp [handle_submit_block, hst, hp, hb, hseed, hblk, hhd, hpw, hdec,
      hcf, hbf, hco, hso]

/-- Witness for the amended C2 at a concrete successful submission. -/
theorem C2_submit_step_state_witness :
    (handle_submit_block stPending submitOkEnv).submits = 1
    ∧ (submitOkEnv.submitOk = true →
        (handle_submit_block stPending submitOkEnv).state =
          { stPending with tari_prev_submit_height := stPending.tari_height,
                           tari_block := none, monero_seed := none })
    ∧ (submitOkEnv.submitOk = false →
        (handle_submit_block stPending submitOkEnv).result =
          .error (.GrpcRequestError "failed to submit block")
        ∧ (handle_submit_block stPending submitOkEnv).state = stPending) :=
  C2_submit_step_state stPending submitOkEnv rfl rfl exNewBlock rfl "seed" rfl
    exGrpcBlock rfl { pow := some { pow_data := [] } } rfl { pow_data := [] } rfl
    exMoneroBlock rfl rfl rfl rfl

/-- A POST request to a path the router does not handle, whose body does
not parse as JSON. -/
def badBodyReq : RequestEnv :=
  { method := .POST, path := "/status", upstreamBody := "resp",
    bodyParses := false, heightEnv := ⟨some 5, true, false, some 6⟩,
    templateEnv := okSeedTemplateEnv, submitEnv := submitOkEnv }

/-- C7 is false as stated: a POST request to a non-handled path whose
body fails to parse as JSON is not passed through; the parse failure
propagates as an error before the path dispatch. -/
theorem C7_counterexample :
    (get_proxy_response initialState badBodyReq).result = .error .RequestBodyParseError
    ∧ (get_proxy_response initialState badBodyReq).result ≠
        .ok (.passthrough badBodyReq.upstreamBody) := by
  exact ⟨rfl, by decide⟩

/-- C7 (amended): on POST requests the body is parsed as JSON before the
path dispatch, so a parse failure aborts the exchange with a parse error
for every POST path, including non-handled ones; the already-fetched
upstream response is not passed through. -/
theorem C7_post_parse_failure (st : TransientData) (req : RequestEnv)
    (hm : req.method = .POST) (hp : req.bodyParses = false) :
    (get_proxy_response st req).result = .error .RequestBodyParseError
    ∧ (get_proxy_response st req).state = st
    ∧ (get_proxy_response st req).connects = 0
    ∧ (get_proxy_response st req).submits = 0 := by
  simp [get_proxy_response, hm, hp]

/-- Witness for the amended C7 at the concrete unparsable POST request. -/
theorem C7_post_parse_failure_witness :
    (get_proxy_response stPending badBodyReq).result = .error .RequestBodyParseError
    ∧ (get_proxy_response stPending badBodyReq).state = stPending
    ∧ (get_proxy_response stPending badBodyReq).connects = 0
    ∧ (get_proxy_response stPending badBodyReq).submits = 0 :=
  C7_post_parse_failure stPending badBodyReq rfl rfl

end MmProxy
